import Mathlib

/-!
Verification of the Budget Scaling Engine of the finley-cfo-agent repository.

The engine lives in two TypeScript files:
  * `src/services/revenue-tracker.ts` — `RevenueTracker` with
    `calculateScaleFactor`, `calculateBudgetLimits`, `fetchRevenueData`,
    `generateRevenueReport`;
  * the budget-updater service (`BudgetUpdater.updateBudgets`), which
    consults the tracker, throttles same-day re-application, and falls back
    to hardcoded defaults on exceptions.

JavaScript numbers are modelled as rationals (ℚ); `Math.round` is modelled
as round-half-up `⌊x + 1/2⌋` (which agrees with JS `Math.round` on all
non-negative arguments, the only ones arising here); the outcome of the
`axios` fetch (transport failure, HTTP status, optional payload fields) is
made an explicit input so the functions are pure; `try`/`catch` in
`updateBudgets` is modelled by an `Except` input.  The result of
`updateBudgets` is paired with the new `lastUpdateDate` field and a boolean
recording which branch ran (the "apply" branch that logs the update and is
the designated site of the remote-configuration write, versus the same-day
throttle branch).
-/

/-- JS `Math.round` on the non-negative arguments used by the engine:
round half up, `⌊x + 1/2⌋`. -/
def jsRound (x : ℚ) : ℤ := ⌊x + 1 / 2⌋

/-- Per-product revenue record (`revenueByProduct` in `RevenueData`). -/
structure RevenueByProduct where
  dealio : ℚ
  quotely : ℚ
  shopflow : ℚ
  shoplink : ℚ
deriving DecidableEq, Repr

/-- The `RevenueData` interface of `revenue-tracker.ts`. -/
structure RevenueData where
  totalMRR : ℚ
  revenueByProduct : RevenueByProduct
  oneTimeRevenue : ℚ
  totalRevenue : ℚ
deriving DecidableEq, Repr

/-- `ceo` entry of the `BudgetLimits` interface. -/
structure CeoBudget where
  maxSpending : ℤ
deriving DecidableEq, Repr

/-- `cfo` entry of the `BudgetLimits` interface. -/
structure CfoBudget where
  maxCostOptimization : ℤ
  maxBudgetAllocation : ℤ
deriving DecidableEq, Repr

/-- `cto` entry of the `BudgetLimits` interface. -/
structure CtoBudget where
  maxInfrastructureCost : ℤ
deriving DecidableEq, Repr

/-- The `BudgetLimits` interface shared by both source files. -/
structure BudgetLimits where
  ceo : CeoBudget
  cfo : CfoBudget
  cto : CtoBudget
deriving DecidableEq, Repr

/-- `private baseRevenue = 1000` — $1,000 MRR = 1x scale. -/
def baseRevenue : ℚ := 1000

/-- `private maxScaleFactor = 10`. -/
def maxScaleFactor : ℚ := 10

/-- `private minScaleFactor = 1`. -/
def minScaleFactor : ℚ := 1

/-- `private baseBudgets` — the fixed base budget table of `RevenueTracker`. -/
def baseBudgets : BudgetLimits :=
  { ceo := { maxSpending := 300 }
    cfo := { maxCostOptimization := 150, maxBudgetAllocation := 300 }
    cto := { maxInfrastructureCost := 150 } }

/-- `RevenueTracker.calculateScaleFactor`: divide by `baseRevenue`, cap at
`maxScaleFactor`, floor at `minScaleFactor`. -/
def calculateScaleFactor (monthlyRevenue : ℚ) : ℚ :=
  let scaleFactor := monthlyRevenue / baseRevenue
  if scaleFactor > maxScaleFactor then maxScaleFactor
  else if scaleFactor < minScaleFactor then minScaleFactor
  else scaleFactor

/-- The record built by `RevenueTracker.calculateBudgetLimits` once the
scale factor has been computed: each base limit times the scale factor,
rounded with `Math.round`. -/
def budgetLimitsFromScale (scaleFactor : ℚ) : BudgetLimits :=
  { ceo :=
      { maxSpending := jsRound ((baseBudgets.ceo.maxSpending : ℚ) * scaleFactor) }
    cfo :=
      { maxCostOptimization :=
          jsRound ((baseBudgets.cfo.maxCostOptimization : ℚ) * scaleFactor)
        maxBudgetAllocation :=
          jsRound ((baseBudgets.cfo.maxBudgetAllocation : ℚ) * scaleFactor) }
    cto :=
      { maxInfrastructureCost :=
          jsRound ((baseBudgets.cto.maxInfrastructureCost : ℚ) * scaleFactor) } }

/-- `RevenueTracker.calculateBudgetLimits`: computes
`calculateScaleFactor monthlyRevenue` and scales every entry of
`baseBudgets` by it, rounding each product. -/
def calculateBudgetLimits (monthlyRevenue : ℚ) : BudgetLimits :=
  budgetLimitsFromScale (calculateScaleFactor monthlyRevenue)

/-- The `financial` object of the analytics payload: every field that
`fetchRevenueData` reads is optional (`|| 0` in the source). -/
structure Financial where
  mrr : Option ℚ
  dealioMRR : Option ℚ
  quotelyMRR : Option ℚ
  shopflowMRR : Option ℚ
  shoplinkMRR : Option ℚ
  oneTimeRevenue : Option ℚ
deriving DecidableEq, Repr

/-- An HTTP response from the analytics endpoint as `fetchRevenueData` sees
it: a status code and an optional `financial` object — the source defaults
a missing one to the empty object with `analytics.financial || ...`. -/
structure HttpResponse where
  status : ℕ
  financial : Option Financial
deriving DecidableEq, Repr

/-- Outcome of the `axios.get` call inside `fetchRevenueData`: either a
transport failure (network error, timeout — the promise rejected) or a
response with some status (`validateStatus: () => true` lets every status
through). -/
inductive FetchOutcome where
  | failure (msg : String)
  | response (resp : HttpResponse)
deriving DecidableEq, Repr

/-- The all-fields-absent `financial` object (the empty-object default). -/
def emptyFinancial : Financial :=
  { mrr := none, dealioMRR := none, quotelyMRR := none, shopflowMRR := none
    shoplinkMRR := none, oneTimeRevenue := none }

/-- The zero-revenue snapshot returned by the `catch` arm of
`fetchRevenueData` (the conservative fallback). -/
def zeroRevenueData : RevenueData :=
  { totalMRR := 0
    revenueByProduct := { dealio := 0, quotely := 0, shopflow := 0, shoplink := 0 }
    oneTimeRevenue := 0
    totalRevenue := 0 }

/-- `RevenueTracker.fetchRevenueData`: a non-200 status throws, and the
surrounding `try`/`catch` turns every throw — transport failure included —
into the zero-revenue snapshot; on a 200 response each financial field is
read with a `|| 0` default and `totalRevenue` is recomputed as
`totalMRR + oneTimeRevenue`. -/
def fetchRevenueData (outcome : FetchOutcome) : RevenueData :=
  match outcome with
  | .failure _ => zeroRevenueData
  | .response resp =>
    if resp.status ≠ 200 then zeroRevenueData
    else
      let financial := resp.financial.getD emptyFinancial
      let totalMRR := financial.mrr.getD 0
      let revenueByProduct : RevenueByProduct :=
        { dealio := financial.dealioMRR.getD 0
          quotely := financial.quotelyMRR.getD 0
          shopflow := financial.shopflowMRR.getD 0
          shoplink := financial.shoplinkMRR.getD 0 }
      let oneTimeRevenue := financial.oneTimeRevenue.getD 0
      let totalRevenue := totalMRR + oneTimeRevenue
      { totalMRR := totalMRR, revenueByProduct := revenueByProduct
        oneTimeRevenue := oneTimeRevenue, totalRevenue := totalRevenue }

/-- Content of the recommendation strings pushed by
`generateRevenueReport`, by band: the two conservative-budget strings, the
two at-cap strings, or the progress string carrying the current scale
factor and the next milestone `Math.ceil(totalMRR / 1000) * 1000` (numeric
formatting of the strings is abstracted to the numbers they cite). -/
inductive Recommendation where
  | conservative
  | atCap
  | progress (scaleFactor : ℚ) (nextMilestone : ℤ)
deriving DecidableEq, Repr

/-- The record returned by `RevenueTracker.generateRevenueReport`. -/
structure RevenueReport where
  revenue : RevenueData
  scaleFactor : ℚ
  budgets : BudgetLimits
  recommendations : Recommendation
deriving DecidableEq, Repr

/-- `RevenueTracker.generateRevenueReport`: fetch, derive the scale factor
and the budget limits from `totalMRR`, and pick the recommendation band by
the source's `if` / `else if` / `else` chain. -/
def generateRevenueReport (outcome : FetchOutcome) : RevenueReport :=
  let revenue := fetchRevenueData outcome
  let scaleFactor := calculateScaleFactor revenue.totalMRR
  let budgets := calculateBudgetLimits revenue.totalMRR
  let recommendations :=
    if revenue.totalMRR < baseRevenue then Recommendation.conservative
    else if scaleFactor ≥ maxScaleFactor then Recommendation.atCap
    else Recommendation.progress scaleFactor (⌈revenue.totalMRR / 1000⌉ * 1000)
  { revenue := revenue, scaleFactor := scaleFactor, budgets := budgets
    recommendations := recommendations }

/-- The record returned by `BudgetUpdater.updateBudgets` (the `error` field
is `Option`al). -/
structure UpdateResult where
  success : Bool
  budgets : BudgetLimits
  scaleFactor : ℚ
  revenue : ℚ
  error : Option String
deriving DecidableEq, Repr

/-- The hardcoded default budget table of the `catch` arm of
`updateBudgets`. -/
def defaultFailureBudgets : BudgetLimits :=
  { ceo := { maxSpending := 300 }
    cfo := { maxCostOptimization := 150, maxBudgetAllocation := 300 }
    cto := { maxInfrastructureCost := 150 } }

/-- One invocation of `updateBudgets`, made explicit: the returned record,
the value of the `lastUpdateDate` field after the call, and whether the
apply branch ran (the branch that logs the recommended budgets and is the
designated site of the TODO remote-configuration write — the same-day
throttle branch returns early and skips it). -/
structure UpdateOutcome where
  result : UpdateResult
  lastUpdateDate : Option String
  applied : Bool
deriving DecidableEq, Repr

/-- `BudgetUpdater.updateBudgets` as a function of the stored
`lastUpdateDate`, the current calendar date (`new Date().toISOString()`
date part), and the outcome of the `try` block's upstream computation: an
exception anywhere in it is the `Except.error` case and lands in the
`catch` arm; otherwise the report is generated from the fetch outcome and
the same-day throttle (`lastUpdateDate === today && scaleFactor <= 1.1`)
decides whether the apply branch runs and `lastUpdateDate` is advanced. -/
def updateBudgets (lastUpdateDate : Option String) (today : String)
    (upstream : Except String FetchOutcome) : UpdateOutcome :=
  match upstream with
  | .error msg =>
    { result :=
        { success := false, budgets := defaultFailureBudgets
          scaleFactor := 1, revenue := 0, error := some msg }
      lastUpdateDate := lastUpdateDate
      applied := false }
  | .ok fetch =>
    let report := generateRevenueReport fetch
    let budgets := report.budgets
    let scaleFactor := report.scaleFactor
    let revenue := report.revenue.totalMRR
    if lastUpdateDate = some today ∧ scaleFactor ≤ 11 / 10 then
      { result :=
          { success := true, budgets := budgets, scaleFactor := scaleFactor
            revenue := revenue, error := none }
        lastUpdateDate := lastUpdateDate
        applied := false }
    else
      { result :=
          { success := true, budgets := budgets, scaleFactor := scaleFactor
            revenue := revenue, error := none }
        lastUpdateDate := some today
        applied := true }

/-! ## Helper lemmas -/

/-- The scale factor never goes below the minimum of 1. -/
lemma one_le_calculateScaleFactor (r : ℚ) : 1 ≤ calculateScaleFactor r := by
  simp only [calculateScaleFactor, baseRevenue, maxScaleFactor, minScaleFactor]
  split_ifs with h1 h2
  · norm_num
  · norm_num
  · exact not_lt.mp h2

/-- The scale factor never exceeds the cap of 10. -/
lemma calculateScaleFactor_le_ten (r : ℚ) : calculateScaleFactor r ≤ 10 := by
  simp only [calculateScaleFactor, baseRevenue, maxScaleFactor, minScaleFactor]
  split_ifs with h1 h2
  · norm_num
  · norm_num
  · exact not_lt.mp h1

/-- The scale-factor computation is exactly a clamp of `r / 1000` to
`[1, 10]`. -/
lemma calculateScaleFactor_eq_clamp (r : ℚ) :
    calculateScaleFactor r = max 1 (min (r / 1000) 10) := by
  simp only [calculateScaleFactor, baseRevenue, maxScaleFactor, minScaleFactor]
  split_ifs with h1 h2
  · rw [min_eq_right h1.le, max_eq_right (by norm_num : (1 : ℚ) ≤ 10)]
  · rw [min_eq_left (not_lt.mp h1), max_eq_left h2.le]
  · rw [min_eq_left (not_lt.mp h1), max_eq_right (not_lt.mp h2)]

/-- `jsRound` is monotone. -/
lemma jsRound_mono {x y : ℚ} (h : x ≤ y) : jsRound x ≤ jsRound y :=
  Int.floor_le_floor (by linarith)

/-- `jsRound` fixes integers. -/
lemma jsRound_intCast (b : ℤ) : jsRound (b : ℚ) = b := by
  unfold jsRound
  rw [add_comm, Int.floor_add_int]
  norm_num

/-- Rounding `b × s` for `1 ≤ s ≤ 10` stays between `b` and `10 b`. -/
lemma jsRound_scaled_bounds (b : ℤ) (hb : 0 ≤ b) {s : ℚ}
    (h1 : 1 ≤ s) (h10 : s ≤ 10) :
    b ≤ jsRound ((b : ℚ) * s) ∧ jsRound ((b : ℚ) * s) ≤ 10 * b := by
  have hb' : (0 : ℚ) ≤ (b : ℚ) := by exact_mod_cast hb
  constructor
  · calc b = jsRound ((b : ℚ)) := (jsRound_intCast b).symm
      _ ≤ jsRound ((b : ℚ) * s) := jsRound_mono (le_mul_of_one_le_right hb' h1)
  · have hmul : (b : ℚ) * s ≤ ((10 * b : ℤ) : ℚ) := by
      push_cast
      nlinarith
    calc jsRound ((b : ℚ) * s) ≤ jsRound (((10 * b : ℤ) : ℚ)) := jsRound_mono hmul
      _ = 10 * b := jsRound_intCast _

/-! ## Claim theorems -/

/-- C4: `calculateScaleFactor` equals `clamp(r / 1000, 1, 10)` — with the
value returned unrounded whenever `1 ≤ r / 1000 ≤ 10` — and returns `1` on
every negative input. -/
theorem calculateScaleFactor_clamp_spec (r : ℚ) :
    calculateScaleFactor r = max 1 (min (r / 1000) 10)
    ∧ (r < 0 → calculateScaleFactor r = 1)
    ∧ (1 ≤ r / 1000 → r / 1000 ≤ 10 → calculateScaleFactor r = r / 1000) := by
  refine ⟨calculateScaleFactor_eq_clamp r, fun hr => ?_, fun hlo hhi => ?_⟩
  · rw [calculateScaleFactor_eq_clamp r,
      min_eq_left (by linarith : r / 1000 ≤ 10),
      max_eq_left (by linarith : r / 1000 ≤ 1)]
  · rw [calculateScaleFactor_eq_clamp r, min_eq_left hhi, max_eq_right hlo]

/-- C4 witness: `calculateScaleFactor` returns 1 at the negative input −5
and returns 2500/1000 unrounded at 2500. -/
theorem calculateScaleFactor_clamp_spec_witness :
    calculateScaleFactor (-5) = 1 ∧ calculateScaleFactor 2500 = 2500 / 1000 :=
  ⟨(calculateScaleFactor_clamp_spec (-5)).2.1 (by norm_num),
   (calculateScaleFactor_clamp_spec 2500).2.2 (by norm_num) (by norm_num)⟩

/-- Every scaled-and-rounded limit lies between its base and ten times its
base whenever the scale factor is in `[1, 10]`. -/
lemma budgetLimitsFromScale_bounds {s : ℚ} (h1 : 1 ≤ s) (h10 : s ≤ 10) :
    (300 ≤ (budgetLimitsFromScale s).ceo.maxSpending
      ∧ (budgetLimitsFromScale s).ceo.maxSpending ≤ 3000)
    ∧ (150 ≤ (budgetLimitsFromScale s).cfo.maxCostOptimization
      ∧ (budgetLimitsFromScale s).cfo.maxCostOptimization ≤ 1500)
    ∧ (300 ≤ (budgetLimitsFromScale s).cfo.maxBudgetAllocation
      ∧ (budgetLimitsFromScale s).cfo.maxBudgetAllocation ≤ 3000)
    ∧ (150 ≤ (budgetLimitsFromScale s).cto.maxInfrastructureCost
      ∧ (budgetLimitsFromScale s).cto.maxInfrastructureCost ≤ 1500) := by
  simp only [budgetLimitsFromScale, baseBudgets]
  have h300 := jsRound_scaled_bounds 300 (by norm_num) h1 h10
  have h150 := jsRound_scaled_bounds 150 (by norm_num) h1 h10
  norm_num at h300 h150 ⊢
  exact ⟨h300, h150, h300, h150⟩

/-- C5: every limit computed by `calculateBudgetLimits` satisfies
`base ≤ limit ≤ base × 10` for its role's base limit, for every revenue
input; at revenue 15000 the scale is capped at 10 and the limits reach
their maxima (executive 3000), none exceeding `base × 10`. -/
theorem calculateBudgetLimits_bounds :
    (∀ r : ℚ,
      (300 ≤ (calculateBudgetLimits r).ceo.maxSpending
        ∧ (calculateBudgetLimits r).ceo.maxSpending ≤ 3000)
      ∧ (150 ≤ (calculateBudgetLimits r).cfo.maxCostOptimization
        ∧ (calculateBudgetLimits r).cfo.maxCostOptimization ≤ 1500)
      ∧ (300 ≤ (calculateBudgetLimits r).cfo.maxBudgetAllocation
        ∧ (calculateBudgetLimits r).cfo.maxBudgetAllocation ≤ 3000)
      ∧ (150 ≤ (calculateBudgetLimits r).cto.maxInfrastructureCost
        ∧ (calculateBudgetLimits r).cto.maxInfrastructureCost ≤ 1500))
    ∧ calculateScaleFactor 15000 = 10
    ∧ calculateBudgetLimits 15000 =
        { ceo := { maxSpending := 3000 }
          cfo := { maxCostOptimization := 1500, maxBudgetAllocation := 3000 }
          cto := { maxInfrastructureCost := 1500 } } := by
  refine ⟨fun r => ?_, ?_, ?_⟩
  · exact budgetLimitsFromScale_bounds (one_le_calculateScaleFactor r)
      (calculateScaleFactor_le_ten r)
  · norm_num [calculateScaleFactor, baseRevenue, maxScaleFactor, minScaleFactor]
  · norm_num [calculateBudgetLimits, budgetLimitsFromScale, calculateScaleFactor,
      baseRevenue, maxScaleFactor, minScaleFactor, baseBudgets, jsRound]

/-- C6: `calculateBudgetLimits` computes each role's limit as
`round(base × scaleFactor)` with round-half-up (`⌊x + 1/2⌋`) over the fixed
base table (executive 300; finance 150 and 300; infrastructure 150); at
revenue 2000 the scale is 2.0 and the limits are 600, 300, 600, 300. -/
theorem calculateBudgetLimits_round_half_up :
    (∀ r : ℚ,
      (calculateBudgetLimits r).ceo.maxSpending
          = ⌊300 * calculateScaleFactor r + 1 / 2⌋
      ∧ (calculateBudgetLimits r).cfo.maxCostOptimization
          = ⌊150 * calculateScaleFactor r + 1 / 2⌋
      ∧ (calculateBudgetLimits r).cfo.maxBudgetAllocation
          = ⌊300 * calculateScaleFactor r + 1 / 2⌋
      ∧ (calculateBudgetLimits r).cto.maxInfrastructureCost
          = ⌊150 * calculateScaleFactor r + 1 / 2⌋)
    ∧ calculateScaleFactor 2000 = 2
    ∧ calculateBudgetLimits 2000 =
        { ceo := { maxSpending := 600 }
          cfo := { maxCostOptimization := 300, maxBudgetAllocation := 600 }
          cto := { maxInfrastructureCost := 300 } } := by
  refine ⟨fun r => ?_, ?_, ?_⟩
  · simp only [calculateBudgetLimits, budgetLimitsFromScale, baseBudgets, jsRound]
    norm_num
  · norm_num [calculateScaleFactor, baseRevenue, maxScaleFactor, minScaleFactor]
  · norm_num [calculateBudgetLimits, budgetLimitsFromScale, calculateScaleFactor,
      baseRevenue, maxScaleFactor, minScaleFactor, baseBudgets, jsRound]

/-- C7: for scale factors `s1 ≤ s2` within `[1, 10]`, every role's limit
at `s1` is at most the same role's limit at `s2` — the budget-limit
computation is monotonically non-decreasing in the scale factor. -/
theorem budgetLimitsFromScale_mono {s1 s2 : ℚ}
    (hs1 : 1 ≤ s1) (hle : s1 ≤ s2) (hs2 : s2 ≤ 10) :
    (budgetLimitsFromScale s1).ceo.maxSpending
        ≤ (budgetLimitsFromScale s2).ceo.maxSpending
    ∧ (budgetLimitsFromScale s1).cfo.maxCostOptimization
        ≤ (budgetLimitsFromScale s2).cfo.maxCostOptimization
    ∧ (budgetLimitsFromScale s1).cfo.maxBudgetAllocation
        ≤ (budgetLimitsFromScale s2).cfo.maxBudgetAllocation
    ∧ (budgetLimitsFromScale s1).cto.maxInfrastructureCost
        ≤ (budgetLimitsFromScale s2).cto.maxInfrastructureCost := by
  simp only [budgetLimitsFromScale, baseBudgets]
  refine ⟨jsRound_mono ?_, jsRound_mono ?_, jsRound_mono ?_, jsRound_mono ?_⟩ <;>
    · push_cast
      nlinarith

/-- C7 witness: the monotonicity theorem applied at the concrete scale
factors 1 and 2. -/
theorem budgetLimitsFromScale_mono_witness :
    (budgetLimitsFromScale 1).ceo.maxSpending
        ≤ (budgetLimitsFromScale 2).ceo.maxSpending
    ∧ (budgetLimitsFromScale 1).cfo.maxCostOptimization
        ≤ (budgetLimitsFromScale 2).cfo.maxCostOptimization
    ∧ (budgetLimitsFromScale 1).cfo.maxBudgetAllocation
        ≤ (budgetLimitsFromScale 2).cfo.maxBudgetAllocation
    ∧ (budgetLimitsFromScale 1).cto.maxInfrastructureCost
        ≤ (budgetLimitsFromScale 2).cto.maxInfrastructureCost :=
  budgetLimitsFromScale_mono (by norm_num) (by norm_num) (by norm_num)

/-- C1: when the stored `lastUpdateDate` is today and the computed scale
factor is at most 1.1, `updateBudgets` takes the throttle branch: it does
not apply (no log / remote-write branch), leaves `lastUpdateDate`
unchanged, and still returns the computed budgets and scale factor as a
successful informational result — so no second same-day apply is signalled
while the scale factor stays at or below 1.1. -/
theorem updateBudgets_same_day_throttle
    (lastUpdateDate : Option String) (today : String) (fetch : FetchOutcome)
    (hdate : lastUpdateDate = some today)
    (hscale : (generateRevenueReport fetch).scaleFactor ≤ 11 / 10) :
    (updateBudgets lastUpdateDate today (Except.ok fetch)).applied = false
    ∧ (updateBudgets lastUpdateDate today (Except.ok fetch)).lastUpdateDate
        = lastUpdateDate
    ∧ (updateBudgets lastUpdateDate today (Except.ok fetch)).result.success = true
    ∧ (updateBudgets lastUpdateDate today (Except.ok fetch)).result.budgets
        = (generateRevenueReport fetch).budgets
    ∧ (updateBudgets lastUpdateDate today (Except.ok fetch)).result.scaleFactor
        = (generateRevenueReport fetch).scaleFactor := by
  simp only [updateBudgets]
  rw [if_pos ⟨hdate, hscale⟩]
  exact ⟨rfl, rfl, rfl, rfl, rfl⟩

/-- C1 witness: a same-day second invocation at scale factor 1 (zero
revenue after a failed fetch) is throttled and leaves the date alone. -/
theorem updateBudgets_same_day_throttle_witness :
    (updateBudgets (some "2025-03-01") "2025-03-01"
        (Except.ok (FetchOutcome.failure "network error"))).applied = false
    ∧ (updateBudgets (some "2025-03-01") "2025-03-01"
        (Except.ok (FetchOutcome.failure "network error"))).lastUpdateDate
        = some "2025-03-01"
    ∧ (updateBudgets (some "2025-03-01") "2025-03-01"
        (Except.ok (FetchOutcome.failure "network error"))).result.success = true
    ∧ (updateBudgets (some "2025-03-01") "2025-03-01"
        (Except.ok (FetchOutcome.failure "network error"))).result.budgets
        = (generateRevenueReport (FetchOutcome.failure "network error")).budgets
    ∧ (updateBudgets (some "2025-03-01") "2025-03-01"
        (Except.ok (FetchOutcome.failure "network error"))).result.scaleFactor
        = (generateRevenueReport (FetchOutcome.failure "network error")).scaleFactor :=
  updateBudgets_same_day_throttle (some "2025-03-01") "2025-03-01"
    (FetchOutcome.failure "network error") rfl
    (by norm_num [generateRevenueReport, fetchRevenueData, zeroRevenueData,
      calculateScaleFactor, baseRevenue, maxScaleFactor, minScaleFactor])

/-- C2: whenever the throttle condition fails — the stored date is not
today, or the scale factor exceeds 1.1 — `updateBudgets` advances
`lastUpdateDate` to today and signals that the update applies (the apply
branch runs), returning a successful result; in particular on a new
calendar day it always applies. -/
theorem updateBudgets_applies
    (lastUpdateDate : Option String) (today : String) (fetch : FetchOutcome)
    (hcond : ¬(lastUpdateDate = some today
        ∧ (generateRevenueReport fetch).scaleFactor ≤ 11 / 10)) :
    (updateBudgets lastUpdateDate today (Except.ok fetch)).lastUpdateDate
        = some today
    ∧ (updateBudgets lastUpdateDate today (Except.ok fetch)).applied = true
    ∧ (updateBudgets lastUpdateDate today (Except.ok fetch)).result.success
        = true := by
  simp only [updateBudgets]
  rw [if_neg hcond]
  exact ⟨rfl, rfl, rfl⟩

/-- C2 witness: on a new calendar day (stored date absent) the update is
applied and the date is advanced. -/
theorem updateBudgets_applies_witness :
    (updateBudgets none "2025-03-01"
        (Except.ok (FetchOutcome.failure "network error"))).lastUpdateDate
        = some "2025-03-01"
    ∧ (updateBudgets none "2025-03-01"
        (Except.ok (FetchOutcome.failure "network error"))).applied = true
    ∧ (updateBudgets none "2025-03-01"
        (Except.ok (FetchOutcome.failure "network error"))).result.success
        = true :=
  updateBudgets_applies none "2025-03-01" (FetchOutcome.failure "network error")
    (by simp)

/-- C3: if the upstream computation throws, `updateBudgets` returns the
structured failure result — `success = false`, exactly the hardcoded
default budget table (300; 150, 300; 150), scale factor 1, revenue 0, and
the error description — and `lastUpdateDate` is left unchanged. -/
theorem updateBudgets_error_fallback (lastUpdateDate : Option String)
    (today msg : String) :
    updateBudgets lastUpdateDate today (Except.error msg) =
      { result :=
          { success := false
            budgets :=
              { ceo := { maxSpending := 300 }
                cfo := { maxCostOptimization := 150, maxBudgetAllocation := 300 }
                cto := { maxInfrastructureCost := 150 } }
            scaleFactor := 1, revenue := 0, error := some msg }
        lastUpdateDate := lastUpdateDate
        applied := false } := rfl

/-- C8: `fetchRevenueData` never propagates an exception — it is a total
function into `RevenueData` — and on any transport failure or non-200
status it returns the zero-valued snapshot, from which the scale factor
degrades to 1 and the budgets to the base table; on a 200 response with a
missing `financial` object it also yields the zero snapshot, and otherwise
every financial field defaults to 0 when absent. -/
theorem fetchRevenueData_soft_failure :
    (∀ msg, fetchRevenueData (FetchOutcome.failure msg) = zeroRevenueData)
    ∧ (∀ resp : HttpResponse, resp.status ≠ 200 →
        fetchRevenueData (FetchOutcome.response resp) = zeroRevenueData)
    ∧ calculateScaleFactor zeroRevenueData.totalMRR = 1
    ∧ calculateBudgetLimits zeroRevenueData.totalMRR = baseBudgets
    ∧ (∀ resp : HttpResponse, resp.status = 200 → resp.financial = none →
        fetchRevenueData (FetchOutcome.response resp) = zeroRevenueData)
    ∧ (∀ (resp : HttpResponse) (f : Financial),
        resp.status = 200 → resp.financial = some f →
        fetchRevenueData (FetchOutcome.response resp) =
          { totalMRR := f.mrr.getD 0
            revenueByProduct :=
              { dealio := f.dealioMRR.getD 0
                quotely := f.quotelyMRR.getD 0
                shopflow := f.shopflowMRR.getD 0
                shoplink := f.shoplinkMRR.getD 0 }
            oneTimeRevenue := f.oneTimeRevenue.getD 0
            totalRevenue := f.mrr.getD 0 + f.oneTimeRevenue.getD 0 }) := by
  refine ⟨fun msg => rfl, fun resp h => ?_, ?_, ?_, fun resp h hf => ?_,
    fun resp f h hf => ?_⟩
  · simp [fetchRevenueData, h]
  · norm_num [zeroRevenueData, calculateScaleFactor, baseRevenue,
      maxScaleFactor, minScaleFactor]
  · norm_num [zeroRevenueData, calculateBudgetLimits, budgetLimitsFromScale,
      calculateScaleFactor, baseRevenue, maxScaleFactor, minScaleFactor,
      baseBudgets, jsRound]
  · simp [fetchRevenueData, h, hf, emptyFinancial, zeroRevenueData]
  · simp [fetchRevenueData, h, hf]

/-- C8 witness: a 500 status yields the zero snapshot, and a 200 response
whose only present field is `mrr = 2500` defaults every other field to 0. -/
theorem fetchRevenueData_soft_failure_witness :
    fetchRevenueData (FetchOutcome.response { status := 500, financial := none })
        = zeroRevenueData
    ∧ fetchRevenueData (FetchOutcome.response
        { status := 200
          financial := some
            { mrr := some 2500, dealioMRR := none, quotelyMRR := none
              shopflowMRR := none, shoplinkMRR := none, oneTimeRevenue := none } })
        = { totalMRR := 2500
            revenueByProduct := { dealio := 0, quotely := 0, shopflow := 0, shoplink := 0 }
            oneTimeRevenue := 0
            totalRevenue := 2500 } := by
  have h := fetchRevenueData_soft_failure
  refine ⟨h.2.1 _ (by decide), ?_⟩
  rw [h.2.2.2.2.2 _ _ rfl rfl]
  norm_num

/-- A total MRR below the base revenue unit puts the scale factor strictly
below the cap of 10 (it is in fact 1), so the recommendation bands cannot
overlap. -/
lemma calculateScaleFactor_lt_ten_of_lt_base {m : ℚ} (h : m < 1000) :
    calculateScaleFactor m < 10 := by
  rw [calculateScaleFactor_eq_clamp, min_eq_left (by linarith : m / 1000 ≤ 10),
    max_eq_left (by linarith : m / 1000 ≤ 1)]
  norm_num

/-- C9: the report generator selects its recommendation by three mutually
exclusive bands — `totalMRR < 1000` gives the conservative-budget guidance
(and then the scale factor is below 10, so the bands cannot overlap),
otherwise a scale factor at the cap of 10 gives the investment-beyond-cap
guidance, and otherwise the progress message citing the current scale
factor and the next milestone `⌈totalMRR / 1000⌉ × 1000`. The generator is
a pure function of the fetch outcome: it mutates no state. -/
theorem generateRevenueReport_bands (fetch : FetchOutcome) :
    ((generateRevenueReport fetch).revenue.totalMRR < 1000 →
        (generateRevenueReport fetch).scaleFactor < 10
        ∧ (generateRevenueReport fetch).recommendations
            = Recommendation.conservative)
    ∧ (¬(generateRevenueReport fetch).revenue.totalMRR < 1000 →
        10 ≤ (generateRevenueReport fetch).scaleFactor →
        (generateRevenueReport fetch).recommendations = Recommendation.atCap)
    ∧ (¬(generateRevenueReport fetch).revenue.totalMRR < 1000 →
        (generateRevenueReport fetch).scaleFactor < 10 →
        (generateRevenueReport fetch).recommendations
          = Recommendation.progress (generateRevenueReport fetch).scaleFactor
              (⌈(generateRevenueReport fetch).revenue.totalMRR / 1000⌉ * 1000)) := by
  simp only [generateRevenueReport, baseRevenue, maxScaleFactor]
  refine ⟨fun h => ⟨calculateScaleFactor_lt_ten_of_lt_base h, ?_⟩,
    fun h hge => ?_, fun h hlt => ?_⟩
  · rw [if_pos h]
  · rw [if_neg h, if_pos hge]
  · rw [if_neg h, if_neg (not_le.mpr hlt)]

/-- C9 witness: at a 200 response reporting 2500 MRR the report lands in
the progress band, citing scale 5/2 and the 3000 milestone. -/
theorem generateRevenueReport_bands_witness :
    (generateRevenueReport (FetchOutcome.response
        { status := 200
          financial := some
            { mrr := some 2500, dealioMRR := none, quotelyMRR := none
              shopflowMRR := none, shoplinkMRR := none
              oneTimeRevenue := none } })).recommendations
      = Recommendation.progress
          ((generateRevenueReport (FetchOutcome.response
            { status := 200
              financial := some
                { mrr := some 2500, dealioMRR := none, quotelyMRR := none
                  shopflowMRR := none, shoplinkMRR := none
                  oneTimeRevenue := none } })).scaleFactor)
          (⌈(generateRevenueReport (FetchOutcome.response
            { status := 200
              financial := some
                { mrr := some 2500, dealioMRR := none, quotelyMRR := none
                  shopflowMRR := none, shoplinkMRR := none
                  oneTimeRevenue := none } })).revenue.totalMRR / 1000⌉ * 1000) :=
  (generateRevenueReport_bands _).2.2
    (by norm_num [generateRevenueReport, fetchRevenueData, emptyFinancial])
    (by norm_num [generateRevenueReport, fetchRevenueData, emptyFinancial,
      calculateScaleFactor, baseRevenue, maxScaleFactor, minScaleFactor])

/-- C10: whichever path `updateBudgets` takes — throttled, applied, or the
exception fallback — the returned `budgets` field is consistent with the
returned `scaleFactor` field: it equals the base table scaled and rounded
at that very scale factor; in particular the hardcoded failure budgets are
the base table at scale factor 1. -/
theorem updateBudgets_result_consistent (lastUpdateDate : Option String)
    (today : String) (upstream : Except String FetchOutcome) :
    (updateBudgets lastUpdateDate today upstream).result.budgets
      = budgetLimitsFromScale
          (updateBudgets lastUpdateDate today upstream).result.scaleFactor := by
  cases upstream with
  | error msg =>
    show defaultFailureBudgets = budgetLimitsFromScale 1
    norm_num [defaultFailureBudgets, budgetLimitsFromScale, baseBudgets, jsRound]
  | ok fetch =>
    simp only [updateBudgets, generateRevenueReport, calculateBudgetLimits]
    split_ifs <;> rfl
